import Mathlib

/-!
Verification of the inventory / purchase-order core of the
african-inventory-management backend.

The Python model and service layer (backend/api/models/inventory.py,
backend/api/models/purchase_order.py, backend/api/models/audit_log.py,
backend/api/services/inventory_service.py, backend/api/models/supplier.py)
is shallowly embedded below.  Conventions:

* SQLAlchemy rows become Lean structures; columns not touched by the
  verified operations (descriptions, timestamps, ip/user-agent columns,
  barcode, image url, foreign keys that are never read) are elided.
* `db.Numeric` fixed-point columns are modelled as `Rat`; integer columns
  as `Int` (they are Python ints); ids as `Nat`.
* A Python method that mutates `self` and may `raise` becomes a pure
  function.  When every `raise` happens before the first field
  assignment, the function returns `Except Err ...` and an `error`
  result means the objects of the caller are unchanged.  `mark_delivered`
  assigns `status` before its loop of `add_stock` calls, so it returns
  the (possibly partially mutated) state alongside the `Except` flag,
  matching the in-memory semantics of the Python objects.
* Every `raise ValueError(msg)` is modelled as `Err.valueError msg` with
  the exact message string of the source.
* Audit rows created by an operation are returned as a list; the
  database autoincrement id for a new purchase-order line is modelled as
  max of existing line ids plus one.
-/

namespace AfricanInventory

/-- Errors: the backend raises `ValueError(msg)` for every guard failure;
the message string is kept verbatim. -/
inductive Err where
  | valueError (msg : String)
deriving Repr, DecidableEq

/-- One row of the `audit_logs` table (AuditLog model); `ip_address`,
`user_agent`, `notes` and the timestamp are elided. -/
structure AuditEntry where
  userId : Nat
  action : String
  tableName : String
  recordId : Nat
  oldValue : Option String
  newValue : Option String
deriving Repr, DecidableEq

/-- One row of the `notifications` table (Notification model), reduced to
the fields the verified operations write. -/
structure Notification where
  userId : Nat
  title : String
  message : String
  kind : String
deriving Repr, DecidableEq

/-- One row of the `inventory_items` table (InventoryItem model). -/
structure InventoryItem where
  id : Nat
  sku : String
  name : String
  quantity : Int
  unitPrice : Rat
  reorderLevel : Int
  isActive : Bool
deriving Repr, DecidableEq

namespace InventoryItem

/-- InventoryItem.status hybrid property: derived from `quantity`. -/
def status (it : InventoryItem) : String :=
  if it.quantity ≤ 0 then "out_of_stock"
  else if it.quantity ≤ it.reorderLevel then "low_stock"
  else "in_stock"

/-- InventoryItem.add_stock: guard `quantity <= 0`, then increment and
write one audit row whose old/new values are the quantities as strings
(the source computes `old_value` as `str(self.quantity - quantity)` after
the increment). -/
def add_stock (it : InventoryItem) (quantity : Int) (userId : Nat) :
    Except Err (InventoryItem × AuditEntry) :=
  if quantity ≤ 0 then .error (.valueError "Quantity must be positive")
  else
    let it2 := { it with quantity := it.quantity + quantity }
    .ok (it2,
      ⟨userId, "add_stock", "inventory_items", it.id,
        some (toString (it2.quantity - quantity)), some (toString it2.quantity)⟩)

/-- InventoryItem.remove_stock: guards `quantity <= 0` then
`self.quantity < quantity`, then decrement and write one audit row. -/
def remove_stock (it : InventoryItem) (quantity : Int) (userId : Nat) :
    Except Err (InventoryItem × AuditEntry) :=
  if quantity ≤ 0 then .error (.valueError "Quantity must be positive")
  else if it.quantity < quantity then .error (.valueError "Insufficient stock")
  else
    let it2 := { it with quantity := it.quantity - quantity }
    .ok (it2,
      ⟨userId, "remove_stock", "inventory_items", it.id,
        some (toString (it2.quantity + quantity)), some (toString it2.quantity)⟩)

end InventoryItem

/-- A call against the ledger interface of one item: `add_stock q uid` or
`remove_stock q uid`. -/
inductive LedgerOp where
  | add (q : Int) (uid : Nat)
  | remove (q : Int) (uid : Nat)
deriving Repr, DecidableEq

/-- Effect of one ledger call on the item: a raised `ValueError` leaves
the Python object unchanged (both methods raise before assigning). -/
def applyLedgerOp (it : InventoryItem) : LedgerOp → InventoryItem
  | .add q uid =>
      match it.add_stock q uid with
      | .ok (it2, _) => it2
      | .error _ => it
  | .remove q uid =>
      match it.remove_stock q uid with
      | .ok (it2, _) => it2
      | .error _ => it

/-- Effect of a sequence of ledger calls on one item. -/
def runLedgerOps (it : InventoryItem) (ops : List LedgerOp) : InventoryItem :=
  ops.foldl applyLedgerOp it

/-- `InventoryItem.query.get(item_id)` over an in-memory table: first row
with the given primary key (notice: no `is_active` filter). -/
def findItem (inv : List InventoryItem) (iid : Nat) : Option InventoryItem :=
  inv.find? (fun x => x.id == iid)

/-- Write-back of a mutated row: replace the first row carrying its id. -/
def updateItem : List InventoryItem → InventoryItem → List InventoryItem
  | [], _ => []
  | x :: xs, it2 => if x.id == it2.id then it2 :: xs else x :: updateItem xs it2

/-- Total stock over a table of items (used to state that delivery adds
stock). -/
def sumQ (inv : List InventoryItem) : Int :=
  (inv.map InventoryItem.quantity).sum

/-- One row of the `purchase_order_items` table (PurchaseOrderItem
model); `notes` and the timestamp are elided. -/
structure PurchaseOrderItem where
  id : Nat
  inventoryItemId : Nat
  quantity : Int
  unitPrice : Rat
deriving Repr, DecidableEq

/-- PurchaseOrderItem.total_price hybrid property:
`quantity * unit_price`. -/
def PurchaseOrderItem.total_price (li : PurchaseOrderItem) : Rat :=
  li.quantity * li.unitPrice

/-- One row of the `purchase_orders` table (PurchaseOrder model) together
with its owned line-item collection; currency, dates, notes and the
supplier/user relationships are elided. -/
structure PurchaseOrder where
  id : Nat
  poNumber : String
  supplierId : Nat
  status : String
  totalAmount : Rat
  createdBy : Nat
  approvedBy : Option Nat
  items : List PurchaseOrderItem
deriving Repr, DecidableEq

namespace PurchaseOrder

/-- PurchaseOrder.can_approve hybrid property. -/
def can_approve (po : PurchaseOrder) : Bool := po.status == "pending"

/-- PurchaseOrder.can_reject hybrid property. -/
def can_reject (po : PurchaseOrder) : Bool := po.status == "pending"

/-- PurchaseOrder.calculate_total: `total_amount` becomes the sum of the
`total_price` values of the line items. -/
def calculate_total (po : PurchaseOrder) : PurchaseOrder :=
  { po with totalAmount := (po.items.map PurchaseOrderItem.total_price).sum }

/-- Helper for `add_item`: the source updates the *first* line with the
given `inventory_item_id` (`.first()`), adding the quantity and
overwriting the unit price. -/
def mergeFirst : List PurchaseOrderItem → Nat → Int → Rat → List PurchaseOrderItem
  | [], _, _, _ => []
  | li :: rest, invId, q, price =>
    if li.inventoryItemId == invId then
      { li with quantity := li.quantity + q, unitPrice := price } :: rest
    else
      li :: mergeFirst rest invId q price

/-- Database autoincrement for a new line id: one more than the largest
existing line id. -/
def nextItemId (po : PurchaseOrder) : Nat :=
  (po.items.map PurchaseOrderItem.id).foldl max 0 + 1

/-- PurchaseOrder.add_item: merge into an existing line for the same
inventory item, else append a new line; then `calculate_total`.  The
source performs no status check and cannot fail. -/
def add_item (po : PurchaseOrder) (invId : Nat) (q : Int) (price : Rat) :
    PurchaseOrder :=
  if po.items.any (fun li => li.inventoryItemId == invId) then
    calculate_total { po with items := mergeFirst po.items invId q price }
  else
    calculate_total
      { po with items := po.items ++ [⟨nextItemId po, invId, q, price⟩] }

/-- Helper for `remove_item`: delete the first line with the given id. -/
def removeFirst : List PurchaseOrderItem → Nat → List PurchaseOrderItem
  | [], _ => []
  | li :: rest, itemId =>
    if li.id == itemId then rest else li :: removeFirst rest itemId

/-- PurchaseOrder.remove_item: delete the matching line (if any) and
`calculate_total`; with no matching line nothing happens.  The source
performs no status check. -/
def remove_item (po : PurchaseOrder) (itemId : Nat) : PurchaseOrder :=
  if po.items.any (fun li => li.id == itemId) then
    calculate_total { po with items := removeFirst po.items itemId }
  else po

/-- PurchaseOrder.approve: guard `can_approve`; on success set status and
approver, write one audit row (old/new are the status strings) and one
notification to the creator. -/
def approve (po : PurchaseOrder) (uid : Nat) :
    Except Err Unit × PurchaseOrder × List AuditEntry × List Notification :=
  if po.can_approve then
    let po2 := { po with status := "approved", approvedBy := some uid }
    (.ok (), po2,
      [⟨uid, "approve_po", "purchase_orders", po.id, some "pending", some "approved"⟩],
      [⟨po.createdBy, "Purchase Order Approved",
        "Purchase order " ++ po.poNumber ++ " has been approved", "info"⟩])
  else
    (.error (.valueError "Purchase order cannot be approved"), po, [], [])

/-- PurchaseOrder.reject: guard `can_reject`; on success set status,
write one audit row and one notification to the creator. -/
def reject (po : PurchaseOrder) (uid : Nat) :
    Except Err Unit × PurchaseOrder × List AuditEntry × List Notification :=
  if po.can_reject then
    let po2 := { po with status := "rejected" }
    (.ok (), po2,
      [⟨uid, "reject_po", "purchase_orders", po.id, some "pending", some "rejected"⟩],
      [⟨po.createdBy, "Purchase Order Rejected",
        "Purchase order " ++ po.poNumber ++ " has been rejected", "warning"⟩])
  else
    (.error (.valueError "Purchase order cannot be rejected"), po, [], [])

end PurchaseOrder

/-- The delivery loop of PurchaseOrder.mark_delivered: for each line, look
the referenced inventory item up (`if inventory_item:` skips a dangling
reference) and call `add_stock` on it.  Each successful `add_stock`
commits immediately in the source, so the state reached so far is kept
when a later call raises. -/
def deliverLoop (uid : Nat) :
    List PurchaseOrderItem → List InventoryItem → List AuditEntry →
    Except Err Unit × List InventoryItem × List AuditEntry
  | [], inv, logs => (.ok (), inv, logs)
  | li :: rest, inv, logs =>
    match findItem inv li.inventoryItemId with
    | none => deliverLoop uid rest inv logs
    | some it =>
      match it.add_stock li.quantity uid with
      | .error e => (.error e, inv, logs)
      | .ok (it2, entry) => deliverLoop uid rest (updateItem inv it2) (logs ++ [entry])

/-- PurchaseOrder.mark_delivered: guard on a status other than approved; then the
source assigns the delivered status *before* looping `add_stock` over
the line items (no `is_active` check anywhere) and finally writes one
`deliver_po` audit row. -/
def PurchaseOrder.mark_delivered (po : PurchaseOrder) (inv : List InventoryItem)
    (uid : Nat) :
    Except Err Unit × PurchaseOrder × List InventoryItem × List AuditEntry :=
  if po.status != "approved" then
    (.error (.valueError "Only approved purchase orders can be marked as delivered"),
      po, inv, [])
  else
    let po2 := { po with status := "delivered" }
    match deliverLoop uid po.items inv [] with
    | (.error e, inv2, logs) => (.error e, po2, inv2, logs)
    | (.ok _, inv2, logs) =>
      (.ok (), po2, inv2,
        logs ++ [⟨uid, "deliver_po", "purchase_orders", po.id,
                   some "approved", some "delivered"⟩])

/-- Python `f"...:0wd"` zero padding of a natural number to a minimum
width. -/
def pad (w : Nat) (n : Nat) : String :=
  if (toString n).length < w then
    String.mk (List.replicate (w - (toString n).length) '0') ++ toString n
  else toString n

/-- PurchaseOrder.generate_po_number formatting:
`f"PO-{year}{month:02d}-{count+1:03d}"`, where `count` is the number of
purchase orders whose `created_at` falls in the given year and month. -/
def generate_po_number (year month count : Nat) : String :=
  "PO-" ++ toString year ++ pad 2 month ++ "-" ++ pad 3 (count + 1)

/-- A committed purchase-order row as seen by the counting query of
`generate_po_number`: its creation year/month and its assigned number. -/
structure PoRow where
  year : Nat
  month : Nat
  number : String
deriving Repr, DecidableEq

/-- The counting query of `generate_po_number`: number of committed
purchase orders created in the given year and month. -/
def countMonth (rows : List PoRow) (y m : Nat) : Nat :=
  (rows.filter (fun r => r.year == y && r.month == m)).length

/-- State of two workers racing to create a purchase order: the committed
rows plus, for each worker, the count it has read but not yet turned into
an inserted row. -/
structure RaceState where
  rows : List PoRow
  pending1 : Option Nat
  pending2 : Option Nat
deriving Repr, DecidableEq

/-- Interleaving steps of the two creations: each worker first runs the
counting query of `generate_po_number` against the committed rows, then
inserts its row.  No lock or counter row serializes the two. -/
inductive RaceStep where
  | read1
  | read2
  | insert1
  | insert2
deriving Repr, DecidableEq

/-- One interleaving step of the two racing creations. -/
def raceStep (y m : Nat) (s : RaceState) : RaceStep → RaceState
  | .read1 => { s with pending1 := some (countMonth s.rows y m) }
  | .read2 => { s with pending2 := some (countMonth s.rows y m) }
  | .insert1 =>
    match s.pending1 with
    | some c =>
      { s with rows := s.rows ++ [⟨y, m, generate_po_number y m c⟩], pending1 := none }
    | none => s
  | .insert2 =>
    match s.pending2 with
    | some c =>
      { s with rows := s.rows ++ [⟨y, m, generate_po_number y m c⟩], pending2 := none }
    | none => s

/-- Run a schedule of interleaving steps. -/
def runRace (y m : Nat) (s : RaceState) (sched : List RaceStep) : RaceState :=
  sched.foldl (raceStep y m) s

/-- `validate_numeric_range(value, min_value=m)` on an integer input:
the float conversion always succeeds, so validity is just the bound. -/
def validate_numeric_range (value minValue : Int) : Bool :=
  minValue ≤ value

namespace InventoryService

/-- InventoryService.create_item: validate `quantity >= 0` and
`unit_price >= 0`, reject an already registered SKU (the lookup
`filter_by(sku=...)` has no `is_active` filter, so deactivated items
count), then insert the item (active, database id modelled as max id
plus one) and write one audit row via `AuditLog.log_activity` with
default (absent) old/new values.  The required-field check is elided:
all fields are present by typing. -/
def create_item (items : List InventoryItem) (sku name : String)
    (quantity : Int) (unitPrice : Rat) (userId : Nat) :
    Except Err (List InventoryItem × AuditEntry) :=
  if ¬ validate_numeric_range quantity 0 then
    .error (.valueError "Value must be at least 0")
  else if ¬ (0 ≤ unitPrice) then
    .error (.valueError "Value must be at least 0")
  else if items.any (fun it => it.sku == sku) then
    .error (.valueError "SKU already exists")
  else
    let nid := (items.map InventoryItem.id).foldl max 0 + 1
    let newItem : InventoryItem := ⟨nid, sku, name, quantity, unitPrice, 10, true⟩
    .ok (items ++ [newItem],
      ⟨userId, "create_inventory_item", "inventory_items", nid, none, none⟩)

/-- State of an item table after a `create_item` call: an error leaves
the table as it was. -/
def applyCreate (items : List InventoryItem) (sku name : String)
    (quantity : Int) (unitPrice : Rat) (userId : Nat) : List InventoryItem :=
  match create_item items sku name quantity unitPrice userId with
  | .ok (items2, _) => items2
  | .error _ => items

/-- InventoryService.update_item, reduced to the fields the claims
touch: optional new name, unit price and reorder level (the latter two
validated non-negative).  One audit row with default (absent) old/new
values. -/
def update_item (items : List InventoryItem) (itemId : Nat)
    (newName : Option String) (newPrice : Option Rat) (newLevel : Option Int)
    (userId : Nat) : Except Err (List InventoryItem × AuditEntry) :=
  match findItem items itemId with
  | none => .error (.valueError "Inventory item not found")
  | some it =>
    if (newPrice.map (fun p => decide (0 ≤ p))).getD true = false then
      .error (.valueError "Value must be at least 0")
    else if (newLevel.map (fun l => validate_numeric_range l 0)).getD true = false then
      .error (.valueError "Value must be at least 0")
    else
      let it2 := { it with
        name := newName.getD it.name
        unitPrice := newPrice.getD it.unitPrice
        reorderLevel := newLevel.getD it.reorderLevel }
      .ok (updateItem items it2,
        ⟨userId, "update_inventory_item", "inventory_items", it.id, none, none⟩)

/-- InventoryService.delete_item: soft delete, flipping `is_active` to
false; one audit row with default (absent) old/new values. -/
def delete_item (items : List InventoryItem) (itemId : Nat) (userId : Nat) :
    Except Err (List InventoryItem × AuditEntry) :=
  match findItem items itemId with
  | none => .error (.valueError "Inventory item not found")
  | some it =>
    let it2 := { it with isActive := false }
    .ok (updateItem items it2,
      ⟨userId, "delete_inventory_item", "inventory_items", it.id, none, none⟩)

/-- InventoryService.add_stock: look the item up by id (no `is_active`
filter), validate `quantity >= 1`, delegate to the `add_stock` of the model,
then emit a stock-restored notification when the item crossed its
reorder level upward. -/
def add_stock (items : List InventoryItem) (itemId : Nat) (quantity : Int)
    (userId : Nat) :
    Except Err (List InventoryItem × AuditEntry × List Notification) :=
  match findItem items itemId with
  | none => .error (.valueError "Inventory item not found")
  | some it =>
    if ¬ validate_numeric_range quantity 1 then
      .error (.valueError "Value must be at least 1")
    else
      match it.add_stock quantity userId with
      | .error e => .error e
      | .ok (it2, entry) =>
        let notifs :=
          if it2.quantity > it2.reorderLevel ∧
              it2.quantity - quantity ≤ it2.reorderLevel then
            [⟨userId, "Stock Restored",
              "Item stock has been restored to normal levels.", "success"⟩]
          else []
        .ok (updateItem items it2, entry, notifs)

end InventoryService

/-- Predicate used to state delivery facts: a line item whose referenced
inventory item exists in the table (`if inventory_item:` in the source). -/
def resolvable (inv : List InventoryItem) (li : PurchaseOrderItem) : Bool :=
  (findItem inv li.inventoryItemId).isSome

/-- Sum of the quantities of the resolvable line items of a delivery. -/
def resolvedQty (lis : List PurchaseOrderItem) (inv : List InventoryItem) : Int :=
  ((lis.filter (resolvable inv)).map PurchaseOrderItem.quantity).sum

/-- Number of resolvable line items of a delivery. -/
def resolvedCount (lis : List PurchaseOrderItem) (inv : List InventoryItem) : Nat :=
  (lis.filter (resolvable inv)).length

/-- Sample order in status `approved` with no line items. -/
def poApproved : PurchaseOrder :=
  ⟨1, "PO-202403-001", 1, "approved", 0, 5, some 6, []⟩

/-- Sample order in status `pending` with no line items. -/
def poPending : PurchaseOrder :=
  ⟨2, "PO-202403-002", 1, "pending", 0, 5, none, []⟩

/-- Sample order in status `approved` with one line item. -/
def poApprovedItems : PurchaseOrder :=
  ⟨3, "PO-202403-003", 1, "approved", 4, 5, some 6, [⟨21, 7, 2, 2⟩]⟩

/-- Sample inventory table for a delivery: three items, the second one
soft-deactivated. -/
def invDeliver : List InventoryItem :=
  [⟨1, "S1", "A", 10, 1, 10, true⟩,
   ⟨2, "S2", "B", 20, 1, 10, false⟩,
   ⟨3, "S3", "C", 30, 1, 10, true⟩]

/-- Sample approved order with three line items referencing the three
items of `invDeliver`, five units each. -/
def poDeliver : PurchaseOrder :=
  ⟨4, "PO-202403-004", 1, "approved", 15, 5, some 6,
   [⟨11, 1, 5, 1⟩, ⟨12, 2, 5, 1⟩, ⟨13, 3, 5, 1⟩]⟩

/-- One ledger call keeps the quantity non-negative: a rejected call
leaves the item unchanged, a successful `add_stock` adds a positive
amount, a successful `remove_stock` removes at most the current
quantity. -/
theorem applyLedgerOp_nonneg (it : InventoryItem) (op : LedgerOp)
    (h : 0 ≤ it.quantity) : 0 ≤ (applyLedgerOp it op).quantity := by
  cases op with
  | add q uid =>
    by_cases hq : q ≤ 0
    · simp [applyLedgerOp, InventoryItem.add_stock, hq, h]
    · simp [applyLedgerOp, InventoryItem.add_stock, hq]
      omega
  | remove q uid =>
    by_cases hq : q ≤ 0
    · simp [applyLedgerOp, InventoryItem.remove_stock, hq, h]
    · by_cases h2 : it.quantity < q
      · simp [applyLedgerOp, InventoryItem.remove_stock, hq, h2, h]
      · simp [applyLedgerOp, InventoryItem.remove_stock, hq, h2]
        omega

/-- Non-negativity is preserved over any sequence of ledger calls. -/
theorem runLedgerOps_nonneg (ops : List LedgerOp) :
    ∀ it : InventoryItem, 0 ≤ it.quantity → 0 ≤ (runLedgerOps it ops).quantity := by
  induction ops with
  | nil => intro it h; exact h
  | cons op rest ih =>
    intro it h
    exact ih (applyLedgerOp it op) (applyLedgerOp_nonneg it op h)

/-- C3: over any sequence of add_stock/remove_stock calls on one item the
quantity never becomes negative, and a remove_stock call requesting more
than the current quantity fails with the insufficient-stock error and
leaves the item unchanged. -/
theorem C3_stock_never_negative (it : InventoryItem) (h : 0 ≤ it.quantity) :
    (∀ ops : List LedgerOp, 0 ≤ (runLedgerOps it ops).quantity) ∧
    (∀ q uid, it.quantity < q →
      it.remove_stock q uid = .error (.valueError "Insufficient stock") ∧
      applyLedgerOp it (.remove q uid) = it) := by
  constructor
  · intro ops
    exact runLedgerOps_nonneg ops it h
  · intro q uid hlt
    have hq : ¬ q ≤ 0 := by omega
    constructor
    · simp [InventoryItem.remove_stock, hq, hlt]
    · simp [applyLedgerOp, InventoryItem.remove_stock, hq, hlt]

/-- Witness for C3 at a concrete item and call sequence. -/
theorem C3_stock_never_negative_witness :
    0 ≤ (runLedgerOps ⟨1, "S", "N", 5, 1, 10, true⟩
          [.add 3 1, .remove 9 1, .remove 8 1]).quantity ∧
    InventoryItem.remove_stock ⟨1, "S", "N", 5, 1, 10, true⟩ 9 1 =
      .error (.valueError "Insufficient stock") :=
  ⟨(C3_stock_never_negative ⟨1, "S", "N", 5, 1, 10, true⟩ (by decide)).1 _,
   ((C3_stock_never_negative ⟨1, "S", "N", 5, 1, 10, true⟩ (by decide)).2 9 1
     (by decide)).1⟩

/-- C2: approve and reject fail outside status `pending`, deliver fails
outside status `approved`; each failure returns the order (and the
inventory table) entirely unchanged with no audit or notification rows. -/
theorem C2_transition_guards (po : PurchaseOrder) (inv : List InventoryItem)
    (uid : Nat) :
    (po.status ≠ "pending" →
      po.approve uid =
        (.error (.valueError "Purchase order cannot be approved"), po, [], [])) ∧
    (po.status ≠ "pending" →
      po.reject uid =
        (.error (.valueError "Purchase order cannot be rejected"), po, [], [])) ∧
    (po.status ≠ "approved" →
      po.mark_delivered inv uid =
        (.error (.valueError "Only approved purchase orders can be marked as delivered"),
          po, inv, [])) := by
  refine ⟨fun h => ?_, fun h => ?_, fun h => ?_⟩
  · simp [PurchaseOrder.approve, PurchaseOrder.can_approve, h]
  · simp [PurchaseOrder.reject, PurchaseOrder.can_reject, h]
  · simp [PurchaseOrder.mark_delivered, h]

/-- Witness for C2: approve/reject on an approved order fail, deliver on
a pending order fails, all states unchanged. -/
theorem C2_transition_guards_witness :
    poApproved.approve 2 =
      (.error (.valueError "Purchase order cannot be approved"), poApproved, [], []) ∧
    poApproved.reject 2 =
      (.error (.valueError "Purchase order cannot be rejected"), poApproved, [], []) ∧
    poPending.mark_delivered invDeliver 2 =
      (.error (.valueError "Only approved purchase orders can be marked as delivered"),
        poPending, invDeliver, []) :=
  ⟨(C2_transition_guards poApproved invDeliver 2).1 (by decide),
   (C2_transition_guards poApproved invDeliver 2).2.1 (by decide),
   (C2_transition_guards poPending invDeliver 2).2.2 (by decide)⟩

/-- C4: immediately after add_item, and after remove_item whenever the
total was correct before the call, total_amount equals the sum of
quantity times unit price over the current line items. -/
theorem C4_total_is_sum (po : PurchaseOrder) (invId : Nat) (q : Int)
    (price : Rat) (itemId : Nat) :
    ((po.add_item invId q price).totalAmount =
      ((po.add_item invId q price).items.map PurchaseOrderItem.total_price).sum) ∧
    (po.totalAmount = (po.items.map PurchaseOrderItem.total_price).sum →
      (po.remove_item itemId).totalAmount =
        ((po.remove_item itemId).items.map PurchaseOrderItem.total_price).sum) := by
  constructor
  · unfold PurchaseOrder.add_item
    split <;> rfl
  · intro h
    unfold PurchaseOrder.remove_item
    split
    · rfl
    · exact h

/-- Witness for C4 at a concrete pending order. -/
theorem C4_total_is_sum_witness :
    ((poPending.add_item 1 2 3).totalAmount =
      ((poPending.add_item 1 2 3).items.map PurchaseOrderItem.total_price).sum) ∧
    ((poPending.remove_item 5).totalAmount =
      ((poPending.remove_item 5).items.map PurchaseOrderItem.total_price).sum) :=
  ⟨(C4_total_is_sum poPending 1 2 3 5).1,
   (C4_total_is_sum poPending 1 2 3 5).2 (by decide)⟩

/-- Merging a quantity into an existing line keeps the number of lines. -/
theorem PurchaseOrder.mergeFirst_length (l : List PurchaseOrderItem)
    (invId : Nat) (q : Int) (price : Rat) :
    (PurchaseOrder.mergeFirst l invId q price).length = l.length := by
  induction l with
  | nil => rfl
  | cons li rest ih =>
    unfold PurchaseOrder.mergeFirst
    split <;> simp [ih]

/-- Deleting the first matching line removes exactly one line. -/
theorem PurchaseOrder.removeFirst_length (l : List PurchaseOrderItem)
    (itemId : Nat) (h : l.any (fun li => li.id == itemId) = true) :
    (PurchaseOrder.removeFirst l itemId).length + 1 = l.length := by
  induction l with
  | nil => simp at h
  | cons li rest ih =>
    unfold PurchaseOrder.removeFirst
    split
    · simp
    · rename_i hne
      simp only [List.any_cons, Bool.or_eq_true] at h
      rcases h with h | h
      · exact absurd h hne
      · simp [ih h]

/-- C5 counterexample: on an order in status `approved` both add_item and
remove_item succeed and mutate the line-item collection (the source has
no status guard), contradicting the claim that they fail and leave the
collection unchanged. -/
theorem C5_counterexample :
    poApproved.status = "approved" ∧
    (poApproved.add_item 1 5 2).items.length = poApproved.items.length + 1 ∧
    (poApproved.add_item 1 5 2).totalAmount = 10 ∧
    poApprovedItems.status = "approved" ∧
    (poApprovedItems.remove_item 21).items.length = 0 ∧
    poApprovedItems.items.length = 1 := by
  refine ⟨rfl, by decide, ?_, rfl, by decide, by decide⟩
  norm_num [PurchaseOrder.add_item, PurchaseOrder.calculate_total,
    PurchaseOrderItem.total_price, poApproved, PurchaseOrder.mergeFirst,
    PurchaseOrder.nextItemId]

/-- C5 amended: add_item and remove_item never inspect the status: in
every status they succeed, leave the status itself unchanged, add_item
appends a line (or merges into an existing one for the same inventory
item), and remove_item deletes the matching line. -/
theorem C5_items_mutable_in_any_status (po : PurchaseOrder) (invId : Nat)
    (q : Int) (price : Rat) (itemId : Nat) :
    ((po.add_item invId q price).status = po.status) ∧
    ((po.remove_item itemId).status = po.status) ∧
    (po.items.any (fun li => li.inventoryItemId == invId) = false →
      (po.add_item invId q price).items.length = po.items.length + 1) ∧
    (po.items.any (fun li => li.inventoryItemId == invId) = true →
      (po.add_item invId q price).items.length = po.items.length) ∧
    (po.items.any (fun li => li.id == itemId) = true →
      (po.remove_item itemId).items.length + 1 = po.items.length) := by
  refine ⟨?_, ?_, fun h => ?_, fun h => ?_, fun h => ?_⟩
  · unfold PurchaseOrder.add_item
    split <;> rfl
  · unfold PurchaseOrder.remove_item
    split <;> rfl
  · simp [PurchaseOrder.add_item, h, PurchaseOrder.calculate_total]
  · simp [PurchaseOrder.add_item, h, PurchaseOrder.calculate_total,
      PurchaseOrder.mergeFirst_length]
  · simp [PurchaseOrder.remove_item, h, PurchaseOrder.calculate_total,
      PurchaseOrder.removeFirst_length _ _ h]

/-- Witness for the amended C5 at concrete approved orders. -/
theorem C5_items_mutable_in_any_status_witness :
    ((poApproved.add_item 1 5 2).status = poApproved.status) ∧
    ((poApprovedItems.remove_item 21).status = poApprovedItems.status) ∧
    ((poApproved.add_item 1 5 2).items.length = poApproved.items.length + 1) ∧
    ((poApprovedItems.add_item 7 1 2).items.length = poApprovedItems.items.length) ∧
    ((poApprovedItems.remove_item 21).items.length + 1 = poApprovedItems.items.length) :=
  ⟨(C5_items_mutable_in_any_status poApproved 1 5 2 21).1,
   (C5_items_mutable_in_any_status poApprovedItems 1 5 2 21).2.1,
   (C5_items_mutable_in_any_status poApproved 1 5 2 21).2.2.1 (by decide),
   (C5_items_mutable_in_any_status poApprovedItems 7 1 2 21).2.2.2.1 (by decide),
   (C5_items_mutable_in_any_status poApprovedItems 7 1 2 21).2.2.2.2 (by decide)⟩

/-- Python zero padding: the result has the requested minimum width. -/
theorem pad_length (w n : Nat) :
    (pad w n).length = max w (toString n).length := by
  unfold pad
  split
  · rename_i h
    simp [String.length_append, String.length_mk]
    omega
  · rename_i h
    omega

/-- C6: the assigned po_number is `PO-`, the year, the zero-padded
two-digit month, `-`, and the zero-padded three-digit ordinal
`count + 1`; with 6 existing orders in March 2024 it is
`PO-202403-007`, the whole string being 13 characters whenever the year
prints as 4 digits, the month as at most 2 and the ordinal as at most 3;
and no operation of the order lifecycle ever changes the `po_number`
assigned at creation. -/
theorem C6_po_number_format (y m n uid invId itemId : Nat) (q : Int)
    (price : Rat) (po : PurchaseOrder) (inv : List InventoryItem)
    (hy : (toString y).length = 4) (hm : (toString m).length ≤ 2)
    (hn : (toString (n + 1)).length ≤ 3) :
    generate_po_number 2024 3 6 = "PO-202403-007" ∧
    (generate_po_number y m n).length = 13 ∧
    (po.add_item invId q price).poNumber = po.poNumber ∧
    (po.remove_item itemId).poNumber = po.poNumber ∧
    (po.approve uid).2.1.poNumber = po.poNumber ∧
    (po.reject uid).2.1.poNumber = po.poNumber ∧
    (po.mark_delivered inv uid).2.1.poNumber = po.poNumber := by
  refine ⟨by decide, ?_, ?_, ?_, ?_, ?_, ?_⟩
  · have h1 := pad_length 2 m
    have h2 := pad_length 3 (n + 1)
    have h3 : ("PO-" : String).length = 3 := rfl
    have h4 : ("-" : String).length = 1 := rfl
    simp [generate_po_number, String.length_append, h1, h2, hy, h3, h4]
    omega
  · unfold PurchaseOrder.add_item
    split <;> rfl
  · unfold PurchaseOrder.remove_item
    split <;> rfl
  · unfold PurchaseOrder.approve
    split <;> rfl
  · unfold PurchaseOrder.reject
    split <;> rfl
  · unfold PurchaseOrder.mark_delivered
    split
    · rfl
    · rcases deliverLoop uid po.items inv [] with ⟨res, inv2, logs⟩
      cases res <;> rfl

/-- Witness for C6 at March 2024 with 6 existing orders and a concrete
order. -/
theorem C6_po_number_format_witness :
    generate_po_number 2024 3 6 = "PO-202403-007" ∧
    (generate_po_number 2024 3 6).length = 13 ∧
    (poPending.add_item 1 2 3).poNumber = poPending.poNumber ∧
    (poPending.remove_item 5).poNumber = poPending.poNumber ∧
    (poPending.approve 2).2.1.poNumber = poPending.poNumber ∧
    (poPending.reject 2).2.1.poNumber = poPending.poNumber ∧
    (poPending.mark_delivered invDeliver 2).2.1.poNumber = poPending.poNumber := by
  have h := C6_po_number_format 2024 3 6 2 1 5 2 3 poPending invDeliver
    (by decide) (by decide) (by decide)
  exact h

/-- Committed rows for March 2024 before the race: six purchase orders
already exist that month. -/
def raceRows6 : List PoRow :=
  [⟨2024, 3, "PO-202403-001"⟩, ⟨2024, 3, "PO-202403-002"⟩,
   ⟨2024, 3, "PO-202403-003"⟩, ⟨2024, 3, "PO-202403-004"⟩,
   ⟨2024, 3, "PO-202403-005"⟩, ⟨2024, 3, "PO-202403-006"⟩]

/-- C7: `generate_po_number` is a count-then-format read with no lock and
no counter row, so the interleaving in which both creations run the
counting query before either row is inserted assigns the same ordinal
(`PO-202403-007`) twice, while the fully serialized schedule assigns 007
then 008.  This exhibits the naive read-then-write race the claim says
is avoided. -/
theorem C7_race_duplicate_number :
    (runRace 2024 3 ⟨raceRows6, none, none⟩
        [.read1, .read2, .insert1, .insert2]).rows =
      raceRows6 ++ [⟨2024, 3, "PO-202403-007"⟩, ⟨2024, 3, "PO-202403-007"⟩] ∧
    (runRace 2024 3 ⟨raceRows6, none, none⟩
        [.read1, .insert1, .read2, .insert2]).rows =
      raceRows6 ++ [⟨2024, 3, "PO-202403-007"⟩, ⟨2024, 3, "PO-202403-008"⟩] := by
  decide

/-- C8: a create request whose SKU is carried by any existing item —
the lookup has no `is_active` filter, so soft-deactivated items count —
fails with the duplicate-SKU error and the item table is unchanged. -/
theorem C8_duplicate_sku_rejected (items : List InventoryItem)
    (sku name : String) (q : Int) (price : Rat) (uid : Nat)
    (hq : 0 ≤ q) (hp : 0 ≤ price)
    (hdup : items.any (fun it => it.sku == sku) = true) :
    InventoryService.create_item items sku name q price uid =
      .error (.valueError "SKU already exists") ∧
    InventoryService.applyCreate items sku name q price uid = items := by
  have h :
      InventoryService.create_item items sku name q price uid =
        .error (.valueError "SKU already exists") := by
    simp [InventoryService.create_item, validate_numeric_range, hq, hp, hdup]
  exact ⟨h, by simp [InventoryService.applyCreate, h]⟩

/-- Witness for C8: the duplicate SKU belongs to a soft-deactivated
item. -/
theorem C8_duplicate_sku_rejected_witness :
    InventoryService.create_item [⟨1, "SKU-9", "Old", 0, 1, 10, false⟩]
        "SKU-9" "New" 5 2 7 =
      .error (.valueError "SKU already exists") ∧
    InventoryService.applyCreate [⟨1, "SKU-9", "Old", 0, 1, 10, false⟩]
        "SKU-9" "New" 5 2 7 =
      [⟨1, "SKU-9", "Old", 0, 1, 10, false⟩] :=
  C8_duplicate_sku_rejected [⟨1, "SKU-9", "Old", 0, 1, 10, false⟩]
    "SKU-9" "New" 5 2 7 (by decide) (by norm_num) (by decide)

/-- Unfolding equation for `updateItem` on a non-empty table. -/
theorem updateItem_cons (x : InventoryItem) (xs : List InventoryItem)
    (it2 : InventoryItem) :
    updateItem (x :: xs) it2 =
      if (x.id == it2.id) = true then it2 :: xs else x :: updateItem xs it2 := rfl

/-- Unfolding equation for `findItem` on a non-empty table. -/
theorem findItem_cons (x : InventoryItem) (xs : List InventoryItem) (iid : Nat) :
    findItem (x :: xs) iid =
      if (x.id == iid) = true then some x else findItem xs iid := by
  by_cases hx : (x.id == iid) = true
  · rw [if_pos hx]
    exact List.find?_cons_of_pos xs
      (show (fun y : InventoryItem => y.id == iid) x = true from hx)
  · rw [if_neg hx]
    exact List.find?_cons_of_neg xs
      (show ¬ (fun y : InventoryItem => y.id == iid) x = true from hx)

/-- Writing one row back leaves every id lookup resolvable exactly as
before (the replaced row keeps its id). -/
theorem findItem_updateItem_isSome (inv : List InventoryItem)
    (it2 : InventoryItem) (iid : Nat) :
    (findItem (updateItem inv it2) iid).isSome = (findItem inv iid).isSome := by
  induction inv with
  | nil => rfl
  | cons x xs ih =>
    rw [updateItem_cons]
    by_cases h : (x.id == it2.id) = true
    · rw [if_pos h]
      have hid : it2.id = x.id := (beq_iff_eq.mp h).symm
      rw [findItem_cons, findItem_cons]
      by_cases hx : (x.id == iid) = true
      · rw [if_pos (by rw [hid]; exact hx), if_pos hx]
        rfl
      · rw [if_neg (by rw [hid]; exact hx), if_neg hx]
    · rw [if_neg h, findItem_cons, findItem_cons]
      by_cases hx : (x.id == iid) = true
      · rw [if_pos hx, if_pos hx]
      · rw [if_neg hx, if_neg hx]
        exact ih

/-- Resolvability of a line item is unaffected by writing a row back. -/
theorem resolvable_updateItem (inv : List InventoryItem) (it2 : InventoryItem)
    (li : PurchaseOrderItem) :
    resolvable (updateItem inv it2) li = resolvable inv li := by
  unfold resolvable
  exact findItem_updateItem_isSome inv it2 li.inventoryItemId

/-- The resolvable quantity total is unaffected by writing a row back. -/
theorem resolvedQty_updateItem (lis : List PurchaseOrderItem)
    (inv : List InventoryItem) (it2 : InventoryItem) :
    resolvedQty lis (updateItem inv it2) = resolvedQty lis inv := by
  unfold resolvedQty
  rw [List.filter_congr (fun li _ => resolvable_updateItem inv it2 li)]

/-- The resolvable line count is unaffected by writing a row back. -/
theorem resolvedCount_updateItem (lis : List PurchaseOrderItem)
    (inv : List InventoryItem) (it2 : InventoryItem) :
    resolvedCount lis (updateItem inv it2) = resolvedCount lis inv := by
  unfold resolvedCount
  rw [List.filter_congr (fun li _ => resolvable_updateItem inv it2 li)]

/-- Writing back the looked-up row with `q` more units raises the total
stock by exactly `q`. -/
theorem sumQ_updateItem (inv : List InventoryItem) (iid : Nat)
    (it : InventoryItem) (q : Int) (h : findItem inv iid = some it) :
    sumQ (updateItem inv { it with quantity := it.quantity + q }) = sumQ inv + q := by
  induction inv with
  | nil => simp [findItem] at h
  | cons x xs ih =>
    rw [findItem_cons] at h
    by_cases hx : (x.id == iid) = true
    · rw [if_pos hx] at h
      have hxx : x = it := Option.some.inj h
      subst hxx
      rw [updateItem_cons, if_pos (by simp)]
      simp [sumQ]
      omega
    · rw [if_neg hx] at h
      have h' : List.find? (fun y : InventoryItem => y.id == iid) xs = some it := h
      have hid := List.find?_some h'
      have hidq : it.id = iid := by simpa using hid
      have hne : ¬ ((x.id == ({ it with quantity := it.quantity + q } : InventoryItem).id) = true) := by
        simp only [beq_iff_eq] at hx ⊢
        simpa [hidq] using hx
      rw [updateItem_cons, if_neg hne]
      have hih := ih h
      simp only [sumQ, List.map_cons, List.sum_cons] at hih ⊢
      omega

/-- The delivery loop never fails when every line quantity is positive
(there is no other guard: in particular `is_active` is never consulted);
it adds the quantity of every resolvable line to the stock and writes one
audit row per resolvable line. -/
theorem deliverLoop_ok (uid : Nat) (lis : List PurchaseOrderItem) :
    ∀ (inv : List InventoryItem) (logs : List AuditEntry),
      (∀ li ∈ lis, 0 < li.quantity) →
      ∃ inv2 logs2,
        deliverLoop uid lis inv logs = (.ok (), inv2, logs2) ∧
        sumQ inv2 = sumQ inv + resolvedQty lis inv ∧
        logs2.length = logs.length + resolvedCount lis inv := by
  induction lis with
  | nil =>
    intro inv logs _
    exact ⟨inv, logs, rfl, by simp [resolvedQty], by simp [resolvedCount]⟩
  | cons li rest ih =>
    intro inv logs h
    have hq : 0 < li.quantity := h li (by simp)
    have hrest : ∀ x ∈ rest, 0 < x.quantity := fun x hx => h x (by simp [hx])
    unfold deliverLoop
    cases hf : findItem inv li.inventoryItemId with
    | none =>
      obtain ⟨inv2, logs2, he, hs, hl⟩ := ih inv logs hrest
      have hr : resolvable inv li = false := by simp [resolvable, hf]
      refine ⟨inv2, logs2, he, ?_, ?_⟩
      · rw [hs]
        simp [resolvedQty, List.filter_cons, hr]
      · rw [hl]
        simp [resolvedCount, List.filter_cons, hr]
    | some it =>
      have hq' : ¬ li.quantity ≤ 0 := by omega
      simp only [InventoryItem.add_stock, if_neg hq']
      have hr : resolvable inv li = true := by simp [resolvable, hf]
      obtain ⟨inv2, logs2, he, hs, hl⟩ :=
        ih (updateItem inv { it with quantity := it.quantity + li.quantity })
          (logs ++ [⟨uid, "add_stock", "inventory_items", it.id,
            some (toString (({ it with quantity := it.quantity + li.quantity} : InventoryItem).quantity - li.quantity)),
            some (toString (({ it with quantity := it.quantity + li.quantity} : InventoryItem).quantity))⟩]) hrest
      refine ⟨inv2, logs2, he, ?_, ?_⟩
      · rw [hs, sumQ_updateItem inv li.inventoryItemId it li.quantity hf,
            resolvedQty_updateItem]
        simp [resolvedQty, List.filter_cons, hr]
        omega
      · rw [hl, resolvedCount_updateItem]
        simp [resolvedCount, List.filter_cons, hr]
        omega

/-- C1 counterexample: an approved order with 3 line items whose 2nd
referenced item is deactivated; mark_delivered nevertheless succeeds,
the order ends in status `delivered` and every item (the deactivated one
included) gains its line quantity — contradicting the claim that the
delivery fails with all quantities unchanged. -/
theorem C1_counterexample :
    (findItem invDeliver 2).map InventoryItem.isActive = some false ∧
    poDeliver.status = "approved" ∧
    (poDeliver.mark_delivered invDeliver 7).1 = .ok () ∧
    (poDeliver.mark_delivered invDeliver 7).2.1.status = "delivered" ∧
    (poDeliver.mark_delivered invDeliver 7).2.2.1.map InventoryItem.quantity =
      [15, 25, 35] := by
  refine ⟨by decide, rfl, rfl, rfl, by decide⟩

/-- C1 amended: on an approved order whose line quantities are positive,
mark_delivered always succeeds — deactivation is never checked — the
order becomes `delivered`, the total stock grows by the sum of the
resolvable line quantities, and one add_stock audit row per resolvable
line plus one deliver_po row are written. -/
theorem C1_deliver_ignores_deactivation (po : PurchaseOrder)
    (inv : List InventoryItem) (uid : Nat) (hs : po.status = "approved")
    (hq : ∀ li ∈ po.items, 0 < li.quantity) :
    ∃ inv2 logs,
      po.mark_delivered inv uid =
        (.ok (), { po with status := "delivered" }, inv2, logs) ∧
      sumQ inv2 = sumQ inv + resolvedQty po.items inv ∧
      logs.length = resolvedCount po.items inv + 1 := by
  unfold PurchaseOrder.mark_delivered
  have hguard : (po.status != "approved") = false := by simp [hs]
  rw [hguard]
  simp only [Bool.false_eq_true, if_false]
  obtain ⟨inv2, logs2, he, hsum, hlen⟩ := deliverLoop_ok uid po.items inv [] hq
  rw [he]
  exact ⟨inv2,
    logs2 ++ [⟨uid, "deliver_po", "purchase_orders", po.id,
      some "approved", some "delivered"⟩],
    rfl, hsum, by simp [hlen]⟩

/-- Witness for the amended C1 at the concrete order and table of the
counterexample. -/
theorem C1_deliver_ignores_deactivation_witness :
    ∃ inv2 logs,
      poDeliver.mark_delivered invDeliver 7 =
        (.ok (), { poDeliver with status := "delivered" }, inv2, logs) ∧
      sumQ inv2 = sumQ invDeliver + resolvedQty poDeliver.items invDeliver ∧
      logs.length = resolvedCount poDeliver.items invDeliver + 1 :=
  C1_deliver_ignores_deactivation poDeliver invDeliver 7 rfl (by decide)

/-- C9 counterexample: a successful create_item writes exactly one audit
row, but the new_value (and old_value) of that row is empty rather than the
post-mutation state; and a delivery of a 3-line order writes 4 audit
rows (one per add_stock plus the deliver_po row), not exactly one. -/
theorem C9_counterexample :
    InventoryService.create_item [] "SKU-1" "Widget" 5 2 9 =
      .ok ([⟨1, "SKU-1", "Widget", 5, 2, 10, true⟩],
        ⟨9, "create_inventory_item", "inventory_items", 1, none, none⟩) ∧
    (poDeliver.mark_delivered invDeliver 7).2.2.2.length = 4 :=
  ⟨rfl, by decide⟩

/-- C9 amended: add_stock and remove_stock write exactly one audit row
whose new_value is the post-mutation quantity; approve and reject write
exactly one row whose new_value is the post-mutation status; create,
update and deactivate write exactly one row with empty old/new values;
deliver writes one add_stock row per resolvable line item plus one
deliver_po row. -/
theorem C9_audit_per_operation :
    (∀ (it : InventoryItem) (q : Int) (uid : Nat) (it2 : InventoryItem) (e : AuditEntry),
      it.add_stock q uid = .ok (it2, e) →
      e.action = "add_stock" ∧ e.newValue = some (toString it2.quantity)) ∧
    (∀ (it : InventoryItem) (q : Int) (uid : Nat) (it2 : InventoryItem) (e : AuditEntry),
      it.remove_stock q uid = .ok (it2, e) →
      e.action = "remove_stock" ∧ e.newValue = some (toString it2.quantity)) ∧
    (∀ (po : PurchaseOrder) (uid : Nat), po.status = "pending" →
      (po.approve uid).2.2.1 =
        [⟨uid, "approve_po", "purchase_orders", po.id, some "pending", some "approved"⟩] ∧
      (po.approve uid).2.1.status = "approved") ∧
    (∀ (po : PurchaseOrder) (uid : Nat), po.status = "pending" →
      (po.reject uid).2.2.1 =
        [⟨uid, "reject_po", "purchase_orders", po.id, some "pending", some "rejected"⟩] ∧
      (po.reject uid).2.1.status = "rejected") ∧
    (∀ (items : List InventoryItem) (sku name : String) (q : Int) (price : Rat)
        (uid : Nat) (items2 : List InventoryItem) (e : AuditEntry),
      InventoryService.create_item items sku name q price uid = .ok (items2, e) →
      e.oldValue = none ∧ e.newValue = none) ∧
    (∀ (items : List InventoryItem) (itemId : Nat) (nn : Option String)
        (np : Option Rat) (nl : Option Int) (uid : Nat)
        (items2 : List InventoryItem) (e : AuditEntry),
      InventoryService.update_item items itemId nn np nl uid = .ok (items2, e) →
      e.oldValue = none ∧ e.newValue = none) ∧
    (∀ (items : List InventoryItem) (itemId : Nat) (uid : Nat)
        (items2 : List InventoryItem) (e : AuditEntry),
      InventoryService.delete_item items itemId uid = .ok (items2, e) →
      e.oldValue = none ∧ e.newValue = none) ∧
    (∀ (po : PurchaseOrder) (inv : List InventoryItem) (uid : Nat),
      po.status = "approved" → (∀ li ∈ po.items, 0 < li.quantity) →
      (po.mark_delivered inv uid).2.2.2.length = resolvedCount po.items inv + 1) := by
  refine ⟨?_, ?_, ?_, ?_, ?_, ?_, ?_, ?_⟩
  · intro it q uid it2 e h
    by_cases hq : q ≤ 0
    · simp [InventoryItem.add_stock, hq] at h
    · simp [InventoryItem.add_stock, hq] at h
      obtain ⟨h1, h2⟩ := h
      subst h1
      subst h2
      exact ⟨rfl, rfl⟩
  · intro it q uid it2 e h
    by_cases hq : q ≤ 0
    · simp [InventoryItem.remove_stock, hq] at h
    · by_cases h2 : it.quantity < q
      · simp [InventoryItem.remove_stock, hq, h2] at h
      · simp [InventoryItem.remove_stock, hq, h2] at h
        obtain ⟨h1, h3⟩ := h
        subst h1
        subst h3
        exact ⟨rfl, rfl⟩
  · intro po uid h
    constructor
    · simp [PurchaseOrder.approve, PurchaseOrder.can_approve, h]
    · simp [PurchaseOrder.approve, PurchaseOrder.can_approve, h]
  · intro po uid h
    constructor
    · simp [PurchaseOrder.reject, PurchaseOrder.can_reject, h]
    · simp [PurchaseOrder.reject, PurchaseOrder.can_reject, h]
  · intro items sku name q price uid items2 e h
    unfold InventoryService.create_item at h
    split at h
    · simp at h
    · split at h
      · simp at h
      · split at h
        · simp at h
        · simp at h
          obtain ⟨h1, h2⟩ := h
          subst h2
          exact ⟨rfl, rfl⟩
  · intro items itemId nn np nl uid items2 e h
    unfold InventoryService.update_item at h
    split at h
    · simp at h
    · split at h
      · simp at h
      · split at h
        · simp at h
        · simp at h
          obtain ⟨h1, h2⟩ := h
          subst h2
          exact ⟨rfl, rfl⟩
  · intro items itemId uid items2 e h
    unfold InventoryService.delete_item at h
    split at h
    · simp at h
    · simp at h
      obtain ⟨h1, h2⟩ := h
      subst h2
      exact ⟨rfl, rfl⟩
  · intro po inv uid hs hq
    unfold PurchaseOrder.mark_delivered
    have hguard : (po.status != "approved") = false := by simp [hs]
    rw [hguard]
    simp only [Bool.false_eq_true, if_false]
    obtain ⟨inv2, logs2, he, _, hlen⟩ := deliverLoop_ok uid po.items inv [] hq
    rw [he]
    simp [hlen]

/-- Witness for the amended C9 at concrete successful calls of every
operation. -/
theorem C9_audit_per_operation_witness :
    ((⟨2, "add_stock", "inventory_items", 1, some "5", some "8"⟩ : AuditEntry).action =
        "add_stock" ∧
     (⟨2, "add_stock", "inventory_items", 1, some "5", some "8"⟩ : AuditEntry).newValue =
        some (toString (⟨1, "S", "N", 8, 1, 10, true⟩ : InventoryItem).quantity)) ∧
    ((⟨2, "remove_stock", "inventory_items", 1, some "5", some "2"⟩ : AuditEntry).action =
        "remove_stock" ∧
     (⟨2, "remove_stock", "inventory_items", 1, some "5", some "2"⟩ : AuditEntry).newValue =
        some (toString (⟨1, "S", "N", 2, 1, 10, true⟩ : InventoryItem).quantity)) ∧
    ((poPending.approve 6).2.2.1 =
        [⟨6, "approve_po", "purchase_orders", poPending.id, some "pending", some "approved"⟩] ∧
     (poPending.approve 6).2.1.status = "approved") ∧
    ((poPending.reject 6).2.2.1 =
        [⟨6, "reject_po", "purchase_orders", poPending.id, some "pending", some "rejected"⟩] ∧
     (poPending.reject 6).2.1.status = "rejected") ∧
    ((⟨9, "create_inventory_item", "inventory_items", 1, none, none⟩ : AuditEntry).oldValue = none ∧
     (⟨9, "create_inventory_item", "inventory_items", 1, none, none⟩ : AuditEntry).newValue = none) ∧
    ((⟨3, "update_inventory_item", "inventory_items", 1, none, none⟩ : AuditEntry).oldValue = none ∧
     (⟨3, "update_inventory_item", "inventory_items", 1, none, none⟩ : AuditEntry).newValue = none) ∧
    ((⟨3, "delete_inventory_item", "inventory_items", 1, none, none⟩ : AuditEntry).oldValue = none ∧
     (⟨3, "delete_inventory_item", "inventory_items", 1, none, none⟩ : AuditEntry).newValue = none) ∧
    ((poDeliver.mark_delivered invDeliver 7).2.2.2.length =
      resolvedCount poDeliver.items invDeliver + 1) :=
  ⟨C9_audit_per_operation.1 ⟨1, "S", "N", 5, 1, 10, true⟩ 3 2
      ⟨1, "S", "N", 8, 1, 10, true⟩
      ⟨2, "add_stock", "inventory_items", 1, some "5", some "8"⟩ rfl,
   C9_audit_per_operation.2.1 ⟨1, "S", "N", 5, 1, 10, true⟩ 3 2
      ⟨1, "S", "N", 2, 1, 10, true⟩
      ⟨2, "remove_stock", "inventory_items", 1, some "5", some "2"⟩ rfl,
   C9_audit_per_operation.2.2.1 poPending 6 rfl,
   C9_audit_per_operation.2.2.2.1 poPending 6 rfl,
   C9_audit_per_operation.2.2.2.2.1 [] "SKU-1" "Widget" 5 2 9
      [⟨1, "SKU-1", "Widget", 5, 2, 10, true⟩]
      ⟨9, "create_inventory_item", "inventory_items", 1, none, none⟩ rfl,
   C9_audit_per_operation.2.2.2.2.2.1 [⟨1, "S", "N", 5, 1, 10, true⟩] 1
      none none none 3 [⟨1, "S", "N", 5, 1, 10, true⟩]
      ⟨3, "update_inventory_item", "inventory_items", 1, none, none⟩ rfl,
   C9_audit_per_operation.2.2.2.2.2.2.1 [⟨1, "S", "N", 5, 1, 10, true⟩] 1 3
      [⟨1, "S", "N", 5, 1, 10, false⟩]
      ⟨3, "delete_inventory_item", "inventory_items", 1, none, none⟩ rfl,
   C9_audit_per_operation.2.2.2.2.2.2.2 poDeliver invDeliver 7 rfl (by decide)⟩

/-- C10: on a soft-deactivated item both ledger operations succeed and
mutate the quantity, and the service-level add_stock (the public
interface) succeeds as well — no ledger operation consults is_active. -/
theorem C10_deactivated_items_accept_stock (items : List InventoryItem)
    (it : InventoryItem) (iid : Nat) (q : Int) (uid : Nat)
    (hfind : findItem items iid = some it)
    (hinact : it.isActive = false)
    (hq : 1 ≤ q) :
    (it.add_stock q uid = .ok ({ it with quantity := it.quantity + q },
      ⟨uid, "add_stock", "inventory_items", it.id,
        some (toString it.quantity), some (toString (it.quantity + q))⟩)) ∧
    (({ it with quantity := it.quantity + q } : InventoryItem).isActive = false) ∧
    (q ≤ it.quantity → it.remove_stock q uid = .ok ({ it with quantity := it.quantity - q },
      ⟨uid, "remove_stock", "inventory_items", it.id,
        some (toString it.quantity), some (toString (it.quantity - q))⟩)) ∧
    (∃ e notifs, InventoryService.add_stock items iid q uid =
      .ok (updateItem items { it with quantity := it.quantity + q }, e, notifs)) := by
  have hq' : ¬ q ≤ 0 := by omega
  have harith : it.quantity + q - q = it.quantity := by omega
  have h1 : it.add_stock q uid = .ok ({ it with quantity := it.quantity + q },
      ⟨uid, "add_stock", "inventory_items", it.id,
        some (toString it.quantity), some (toString (it.quantity + q))⟩) := by
    simp [InventoryItem.add_stock, hq', harith]
  refine ⟨h1, hinact, fun hle => ?_, ?_⟩
  · have hlt : ¬ it.quantity < q := by omega
    have harith2 : it.quantity - q + q = it.quantity := by omega
    simp [InventoryItem.remove_stock, hq', hlt, harith2]
  · unfold InventoryService.add_stock
    rw [hfind]
    have hv : validate_numeric_range q 1 = true := by
      simp [validate_numeric_range]
      omega
    simp only [hv, not_true_eq_false, if_false]
    rw [h1]
    exact ⟨_, _, rfl⟩

/-- Witness for C10 at a concrete deactivated item. -/
theorem C10_deactivated_items_accept_stock_witness :
    ((⟨2, "S2", "B", 20, 1, 10, false⟩ : InventoryItem).add_stock 5 7 =
      .ok (⟨2, "S2", "B", 25, 1, 10, false⟩,
        ⟨7, "add_stock", "inventory_items", 2, some "20", some "25"⟩)) ∧
    ((⟨2, "S2", "B", 20, 1, 10, false⟩ : InventoryItem).remove_stock 5 7 =
      .ok (⟨2, "S2", "B", 15, 1, 10, false⟩,
        ⟨7, "remove_stock", "inventory_items", 2, some "20", some "15"⟩)) ∧
    (∃ e notifs, InventoryService.add_stock [⟨2, "S2", "B", 20, 1, 10, false⟩] 2 5 7 =
      .ok ([⟨2, "S2", "B", 25, 1, 10, false⟩], e, notifs)) := by
  have h := C10_deactivated_items_accept_stock [⟨2, "S2", "B", 20, 1, 10, false⟩]
    ⟨2, "S2", "B", 20, 1, 10, false⟩ 2 5 7 rfl rfl (by decide)
  exact ⟨h.1, h.2.2.1 (by decide), h.2.2.2⟩

end AfricanInventory
